import Mathlib

/-!
# Scheduling & Queueing Engine — verification of the specification

Shallow embedding of the WaitLessQ backend's scheduling and queueing engine:

* `app/services/queue_manager.py` — `QueueManager` (daily queue registry,
  appointment assignment, bulk creation, closing past queues);
* `app/api/v1/endpoints/queues.py` — queue-entry endpoints
  (`add_queue_entry`, `update_queue_entry`, `remove_queue_entry`);
* `app/models/queue.py`, `app/models/appointment.py` — the data model
  (columns that the engine reads or writes);
* the availability resolver of spec §4.1, which has no implementation in
  the repository (only CRUD endpoints for rules and exceptions exist), is
  modelled from the spec's words.

The relational store is embedded as explicit lists of rows inside a `DB`
state record; SQLAlchemy queries become `List.filter` / `List.find?` and
in-place row mutation becomes a positional `List.map` update.
-/

namespace WaitLessQ

/-! ## Dates and datetimes

`datetime.date` is embedded as a (year, month, day) triple of naturals and
`datetime.datetime` as a date plus a time-of-day (microseconds since
midnight).  Only lexicographic comparison and equality are used by the
engine, never calendar arithmetic. -/

structure PyDate where
  year : Nat
  month : Nat
  day : Nat
deriving DecidableEq, Repr

/-- Strict lexicographic order on dates (`<` on `datetime.date`). -/
def PyDate.blt (a b : PyDate) : Bool :=
  a.year < b.year ||
    (a.year == b.year &&
      (a.month < b.month || (a.month == b.month && a.day < b.day)))

/-- Non-strict lexicographic order on dates (`<=` on `datetime.date`). -/
def PyDate.ble (a b : PyDate) : Bool :=
  PyDate.blt a b || a == b

structure PyDateTime where
  date : PyDate
  /-- time of day, microseconds since midnight; `datetime.max.time()` is
  `86399999999` microseconds. -/
  tod : Nat
deriving DecidableEq, Repr

/-- Largest time-of-day value, `datetime.max.time()` in microseconds. -/
def todMax : Nat := 86399999999

/-- Non-strict comparison on datetimes (`<=` on `datetime.datetime`). -/
def PyDateTime.ble (a b : PyDateTime) : Bool :=
  PyDate.blt a.date b.date || (a.date == b.date && a.tod ≤ b.tod)

/-- `datetime.combine(d, datetime.min.time())`. -/
def startOfDay (d : PyDate) : PyDateTime := ⟨d, 0⟩

/-- `datetime.combine(d, datetime.max.time())`. -/
def endOfDay (d : PyDate) : PyDateTime := ⟨d, todMax⟩

/-- English month names, for `strftime("%B ...")`. -/
def monthName : Nat → String
  | 1 => "January" | 2 => "February" | 3 => "March" | 4 => "April"
  | 5 => "May" | 6 => "June" | 7 => "July" | 8 => "August"
  | 9 => "September" | 10 => "October" | 11 => "November" | 12 => "December"
  | _ => ""

/-- Zero-padded two-digit day, `strftime("%d")`. -/
def pad2 (n : Nat) : String :=
  if n < 10 then "0" ++ toString n else toString n

/-- `queue_date.strftime("%B %d, %Y")`, e.g. `"January 08, 2024"`. -/
def PyDate.strftimeLong (d : PyDate) : String :=
  monthName d.month ++ " " ++ pad2 d.day ++ ", " ++ toString d.year

/-! ## Data model (`app/models/queue.py`, `app/models/appointment.py`) -/

inductive QueueStatus
  | active
  | paused
  | closed
deriving DecidableEq, Repr

inductive QueueEntryStatus
  | waiting
  | called
  | completed
  | cancelled
  | no_show
deriving DecidableEq, Repr

inductive AppointmentStatus
  | scheduled
  | confirmed
  | in_progress
  | completed
  | cancelled
  | no_show
deriving DecidableEq, Repr

/-- A row of the `queues` table.  `service_name` and `queue_date` are the
columns added by `migrate_daily_queues.py` and used throughout
`QueueManager`. -/
structure Queue where
  id : Nat
  provider_id : Nat
  name : String
  description : String
  service_name : String
  queue_date : PyDate
  status : QueueStatus
  max_size : Nat
  estimated_wait_time : Option Nat
deriving DecidableEq, Repr

/-- A row of the `queue_entries` table. -/
structure QueueEntry where
  id : Nat
  queue_id : Nat
  client_name : String
  client_phone : Option String
  client_email : Option String
  position : Nat
  status : QueueEntryStatus
  notes : Option String
  called_at : Option PyDateTime
  completed_at : Option PyDateTime
  estimated_wait_time : Option Nat
deriving DecidableEq, Repr

/-- A row of the `appointments` table (the columns the engine reads or
writes).  `scheduled_at` is declared non-nullable but
`assign_appointment_to_queue` guards on its truthiness, so it is embedded
as an option; a falsy `service_name` is the empty string. -/
structure Appointment where
  id : Nat
  provider_id : Nat
  client_name : String
  service_name : String
  scheduled_at : Option PyDateTime
  status : AppointmentStatus
  queue_id : Option Nat
deriving DecidableEq, Repr

/-- A row of the `providers` table (only the columns the engine touches). -/
structure Provider where
  id : Nat
  organization_id : Nat
deriving DecidableEq, Repr

/-- The relational store.  `nextQueueId` / `nextEntryId` model the
autoincrementing primary keys.  `failingProviders` models the Python
runtime: processing one of these providers raises an exception at the
appointment query (e.g. an operational or data error); it is consulted
only by the exception-aware wrapper used for the all-providers sweep. -/
structure DB where
  providers : List Provider
  queues : List Queue
  appointments : List Appointment
  entries : List QueueEntry
  nextQueueId : Nat
  nextEntryId : Nat
  failingProviders : List Nat
deriving DecidableEq, Repr

/-! ## QueueManager.get_or_create_daily_queue -/

/-- The SQL filter
`Queue.provider_id == p AND Queue.service_name == s AND Queue.queue_date == d`. -/
def queueKeyMatch (provider_id : Nat) (service_name : String)
    (queue_date : PyDate) (q : Queue) : Bool :=
  decide (q.provider_id = provider_id) &&
    decide (q.service_name = service_name) &&
    decide (q.queue_date = queue_date)

/-- The queue row built by `get_or_create_daily_queue` when none exists:
name `"{service_name} - {date long}"`, defaults `status=ACTIVE`,
`max_size=100`, `estimated_wait_time=30`. -/
def mkDailyQueue (db : DB) (provider_id : Nat) (service_name : String)
    (queue_date : PyDate) : Queue :=
  { id := db.nextQueueId
    provider_id := provider_id
    name := service_name ++ " - " ++ queue_date.strftimeLong
    description := "Daily queue for " ++ service_name ++ " appointments"
    service_name := service_name
    queue_date := queue_date
    status := QueueStatus.active
    max_size := 100
    estimated_wait_time := some 30 }

/-- `QueueManager.get_or_create_daily_queue`: look up the queue for
`(provider_id, service_name, queue_date)`; if none exists create it with
the derived name/description and default settings. -/
def get_or_create_daily_queue (db : DB) (provider_id : Nat)
    (service_name : String) (queue_date : PyDate) : Queue × DB :=
  match db.queues.find? (queueKeyMatch provider_id service_name queue_date) with
  | some existing_queue => (existing_queue, db)
  | none =>
      (mkDailyQueue db provider_id service_name queue_date,
        { db with
            queues := db.queues ++ [mkDailyQueue db provider_id service_name queue_date]
            nextQueueId := db.nextQueueId + 1 })

/-- Number of queue rows stored for a given `(provider, service, date)` key. -/
def keyCount (db : DB) (provider_id : Nat) (service_name : String)
    (queue_date : PyDate) : Nat :=
  (db.queues.filter (queueKeyMatch provider_id service_name queue_date)).length

/-! ## QueueManager.assign_appointment_to_queue -/

/-- `QueueManager.assign_appointment_to_queue`: if `scheduled_at` or
`service_name` is falsy return `None`; otherwise get-or-create the queue
for `(provider_id, service_name, date(scheduled_at))`, set the
appointment's `queue_id` to the queue's id unconditionally (the source
performs no check of a pre-existing `queue_id`), and return the queue. -/
def assign_appointment_to_queue (db : DB) (appointment : Appointment) :
    Option Queue × DB :=
  match appointment.scheduled_at with
  | none => (none, db)
  | some dt =>
      if appointment.service_name = "" then (none, db)
      else
        let appointment_date := dt.date
        let r := get_or_create_daily_queue db appointment.provider_id
          appointment.service_name appointment_date
        let queue := r.1
        let db1 := r.2
        (some queue,
          { db1 with
              appointments := db1.appointments.map (fun a =>
                if a.id = appointment.id then { a with queue_id := some queue.id }
                else a) })

/-! ## QueueManager.create_daily_queues_for_provider -/

/-- The appointment query of `create_daily_queues_for_provider`:
provider match, `scheduled_at` within `[start_of_day, end_of_day]`, and
status in `{scheduled, confirmed}`. -/
def dailyAppointmentMatch (provider_id : Nat) (target_date : PyDate)
    (a : Appointment) : Bool :=
  decide (a.provider_id = provider_id) &&
    (match a.scheduled_at with
     | none => false
     | some dt =>
         PyDateTime.ble (startOfDay target_date) dt &&
           PyDateTime.ble dt (endOfDay target_date)) &&
    (decide (a.status = AppointmentStatus.scheduled) ||
      decide (a.status = AppointmentStatus.confirmed))

/-- The assignment sweep of one loop iteration of
`create_daily_queues_for_provider`: set `queue_id := queue_id_val` on
every appointment of the snapshot's service group whose `queue_id` is
still null.  Membership in the group is fixed by the query snapshot
`apts`, while the null-check reads the current row state, exactly as the
Python loop reads the live ORM objects. -/
def assignServiceStep (apts : List Appointment) (service_name : String)
    (queue_id_val : Nat) (db : DB) : DB :=
  let serviceIds :=
    (apts.filter (fun a => decide (a.service_name = service_name))).map (·.id)
  { db with
      appointments := db.appointments.map (fun a =>
        if serviceIds.contains a.id && decide (a.queue_id = none) then
          { a with queue_id := some queue_id_val }
        else a) }

/-- The loop of `create_daily_queues_for_provider`, one iteration per
distinct service name: get-or-create the queue for the service, append it
to the result, then run the assignment sweep. -/
def createDailyQueuesGo (provider_id : Nat) (target_date : PyDate)
    (apts : List Appointment) : List String → List Queue → DB → List Queue × DB
  | [], created_queues, db => (created_queues, db)
  | service_name :: rest, created_queues, db =>
      let r := get_or_create_daily_queue db provider_id service_name target_date
      createDailyQueuesGo provider_id target_date apts rest
        (created_queues ++ [r.1]) (assignServiceStep apts service_name r.1.id r.2)

/-- `QueueManager.create_daily_queues_for_provider`: fetch the day's
scheduled/confirmed appointments, collect their distinct non-empty service
names (Python builds `list(set(...))`, whose iteration order is
unspecified; the embedding uses first-occurrence order — every claim
below is order-independent), then run the per-service loop. -/
def create_daily_queues_for_provider (db : DB) (provider_id : Nat)
    (target_date : PyDate) : List Queue × DB :=
  let appointments :=
    db.appointments.filter (dailyAppointmentMatch provider_id target_date)
  let service_names :=
    ((appointments.filter (fun a => !decide (a.service_name = ""))).map
      (·.service_name)).dedup
  createDailyQueuesGo provider_id target_date appointments service_names [] db

/-! ## QueueManager.create_daily_queues_for_all_providers

The source iterates all providers and calls
`create_daily_queues_for_provider` for each with **no** `try/except`.
To make error propagation statable, the per-provider call is wrapped in
`Except`: processing a provider in `db.failingProviders` raises (models a
Python runtime exception at the appointment query), and — as in the
source, which has no handler — an error aborts the whole sweep. -/

/-- `create_daily_queues_for_provider` as executed by the Python runtime:
the body can raise; a provider in `db.failingProviders` does. -/
def createDailyQueuesForProviderRun (db : DB) (provider_id : Nat)
    (target_date : PyDate) : Except String (List Queue × DB) :=
  if db.failingProviders.contains provider_id then
    Except.error ("error processing provider " ++ toString provider_id)
  else
    Except.ok (create_daily_queues_for_provider db provider_id target_date)

/-- The provider loop of `create_daily_queues_for_all_providers`.  There
is no `try/except` in the source, so an error from one provider
propagates immediately and the remaining providers are not processed. -/
def createAllGo (target_date : PyDate) :
    List Provider → List Queue → DB → Except String (List Queue × DB)
  | [], all_queues, db => Except.ok (all_queues, db)
  | p :: rest, all_queues, db =>
      match createDailyQueuesForProviderRun db p.id target_date with
      | Except.error e => Except.error e
      | Except.ok (provider_queues, db1) =>
          createAllGo target_date rest (all_queues ++ provider_queues) db1

/-- `QueueManager.create_daily_queues_for_all_providers`: query all
providers and run the loop.  The return value is the flat queue list;
the source produces no per-provider error report. -/
def create_daily_queues_for_all_providers (db : DB) (target_date : PyDate) :
    Except String (List Queue × DB) :=
  createAllGo target_date db.providers [] db

/-! ## QueueManager.close_past_queues -/

/-- The SQL filter `Queue.queue_date < cutoff AND Queue.status == ACTIVE`. -/
def pastActiveMatch (cutoff_date : PyDate) (q : Queue) : Bool :=
  PyDate.blt q.queue_date cutoff_date && decide (q.status = QueueStatus.active)

/-- The per-row effect of `close_past_queues`: an active queue dated
before the cutoff becomes `CLOSED`, every other row is untouched. -/
def closeRow (cutoff_date : PyDate) (q : Queue) : Queue :=
  if pastActiveMatch cutoff_date q = true then { q with status := QueueStatus.closed }
  else q

/-- `QueueManager.close_past_queues`: collect the active queues dated
before the cutoff, set each of them to `CLOSED`, and return how many were
collected. -/
def close_past_queues (db : DB) (cutoff_date : PyDate) : Nat × DB :=
  let past_queues := db.queues.filter (pastActiveMatch cutoff_date)
  (past_queues.length,
    { db with queues := db.queues.map (closeRow cutoff_date) })

/-! ## Queue-entry endpoints (`app/api/v1/endpoints/queues.py`) -/

/-- Request body of `POST /{queue_id}/entries` (`QueueEntryCreate`).  Note
the body carries its own `queue_id`, distinct from the path parameter. -/
structure QueueEntryCreate where
  queue_id : Nat
  client_name : String
  client_phone : Option String
  client_email : Option String
  notes : Option String
deriving DecidableEq, Repr

/-- Request body of `PUT /{queue_id}/entries/{entry_id}`
(`QueueEntryUpdate` with `exclude_unset=True`): `none` means the field was
not supplied and is left untouched. -/
structure QueueEntryUpdate where
  client_name : Option String
  client_phone : Option String
  client_email : Option String
  status : Option QueueEntryStatus
  notes : Option String
  estimated_wait_time : Option Nat
deriving DecidableEq, Repr

/-- An update body that sets nothing. -/
def QueueEntryUpdate.empty : QueueEntryUpdate :=
  { client_name := none, client_phone := none, client_email := none
    status := none, notes := none, estimated_wait_time := none }

/-- The `setattr` loop of `update_queue_entry`: copy over exactly the
fields present in the body.  No field is validated, and `called_at` /
`completed_at` are not part of the update schema, so they are never
touched. -/
def applyEntryUpdate (e : QueueEntry) (u : QueueEntryUpdate) : QueueEntry :=
  { e with
      client_name := match u.client_name with
        | some v => v
        | none => e.client_name
      client_phone := match u.client_phone with
        | some v => some v
        | none => e.client_phone
      client_email := match u.client_email with
        | some v => some v
        | none => e.client_email
      status := match u.status with
        | some v => v
        | none => e.status
      notes := match u.notes with
        | some v => some v
        | none => e.notes
      estimated_wait_time := match u.estimated_wait_time with
        | some v => some v
        | none => e.estimated_wait_time }

/-- The SQL filter
`QueueEntry.id == entry_id AND QueueEntry.queue_id == queue_id`. -/
def entryMatch (queue_id entry_id : Nat) (e : QueueEntry) : Bool :=
  decide (e.id = entry_id) && decide (e.queue_id = queue_id)

/-- Replace the first row satisfying `p` by its image under `f`
(the ORM mutates the single row returned by `.first()`). -/
def updateFirst (p : α → Bool) (f : α → α) : List α → List α
  | [] => []
  | a :: rest => if p a then f a :: rest else a :: updateFirst p f rest

/-- `add_queue_entry` (`POST /{queue_id}/entries`): read the entry of the
path's queue with the largest `position` (`order_by(position.desc()).first()`),
assign `position = last.position + 1` (or `1` when the queue has no
entries), and insert the new row.  The row's `queue_id` comes from the
request body; `status` takes the column default `WAITING`.  No check of
queue existence, queue status, or `max_size` is performed. -/
def add_queue_entry (db : DB) (queue_id : Nat) (entry : QueueEntryCreate) :
    QueueEntry × DB :=
  let queueEntries := db.entries.filter (fun e => decide (e.queue_id = queue_id))
  let position :=
    match queueEntries with
    | [] => 1
    | _ => ((queueEntries.map (·.position)).foldl max 0) + 1
  let db_entry : QueueEntry :=
    { id := db.nextEntryId
      queue_id := entry.queue_id
      client_name := entry.client_name
      client_phone := entry.client_phone
      client_email := entry.client_email
      position := position
      status := QueueEntryStatus.waiting
      notes := entry.notes
      called_at := none
      completed_at := none
      estimated_wait_time := none }
  (db_entry,
    { db with
        entries := db.entries ++ [db_entry]
        nextEntryId := db.nextEntryId + 1 })

/-- `update_queue_entry` (`PUT /{queue_id}/entries/{entry_id}`): 404 when
no row matches; otherwise apply the body's set fields verbatim — there is
no state-machine check, no rejection of a transition to the current
status, and no timestamp is written. -/
def update_queue_entry (db : DB) (queue_id entry_id : Nat)
    (entry : QueueEntryUpdate) : Except String (QueueEntry × DB) :=
  match db.entries.find? (entryMatch queue_id entry_id) with
  | none => Except.error "Queue entry not found"
  | some db_entry =>
      Except.ok (applyEntryUpdate db_entry entry,
        { db with
            entries := updateFirst (entryMatch queue_id entry_id)
              (fun e => applyEntryUpdate e entry) db.entries })

/-- `remove_queue_entry` (`DELETE /{queue_id}/entries/{entry_id}`): 404
when no row matches; otherwise delete the row. -/
def remove_queue_entry (db : DB) (queue_id entry_id : Nat) :
    Except String DB :=
  match db.entries.find? (entryMatch queue_id entry_id) with
  | none => Except.error "Queue entry not found"
  | some _ =>
      Except.ok { db with entries := db.entries.eraseP (entryMatch queue_id entry_id) }

/-! ## Availability resolver (spec §4.1)

The repository stores availability rules and exceptions
(`app/models/availability.py`) and exposes CRUD endpoints for them, but
contains no implementation of `resolveAvailability`; the resolver below is
modelled from the spec. -/

inductive Weekday
  | monday
  | tuesday
  | wednesday
  | thursday
  | friday
  | saturday
  | sunday
deriving DecidableEq, Repr

inductive AvailabilityType
  | recurring
  | exception
  | special
deriving DecidableEq, Repr

/-- A break interval inside a rule's window, times in minutes since
midnight. -/
structure BreakItem where
  start : Nat
  stop : Nat
deriving DecidableEq, Repr

/-- An availability rule (`availability` table); times in minutes since
midnight. -/
structure AvailRule where
  provider_id : Nat
  availability_type : AvailabilityType
  day_of_week : Option Weekday
  start_time : Option Nat
  end_time : Option Nat
  specific_date : Option PyDate
  is_available : Bool
  breaks : List BreakItem
  max_bookings : Option Nat
  buffer_minutes : Nat
  priority : Int
  is_active : Bool
deriving DecidableEq, Repr

/-- A bookable window produced by the resolver. -/
structure Window where
  start : Nat
  stop : Nat
  buffer_minutes : Nat
  max_bookings : Option Nat
deriving DecidableEq, Repr

/-- An availability exception (`availability_exceptions` table).
`custom_hours` maps weekday names to an interval. -/
structure AvailException where
  provider_id : Nat
  start_date : PyDate
  end_date : PyDate
  is_available : Bool
  custom_hours : Option (List (Weekday × Window))
  is_active : Bool
deriving DecidableEq, Repr

/-- Sakamoto's day-of-week computation (0 = Sunday). -/
def PyDate.weekdayIndex (d : PyDate) : Nat :=
  let t := [0, 3, 2, 5, 0, 3, 5, 1, 4, 6, 2, 4]
  let y := if d.month < 3 then d.year - 1 else d.year
  (y + y / 4 - y / 100 + y / 400 + t.getD (d.month - 1) 0 + d.day) % 7

def PyDate.weekday (d : PyDate) : Weekday :=
  match d.weekdayIndex with
  | 0 => Weekday.sunday
  | 1 => Weekday.monday
  | 2 => Weekday.tuesday
  | 3 => Weekday.wednesday
  | 4 => Weekday.thursday
  | 5 => Weekday.friday
  | _ => Weekday.saturday

/-- Subtract one break from an interval, producing the surviving
sub-intervals (empty pieces are dropped). -/
def subtractBreak (iv : Nat × Nat) (b : BreakItem) : List (Nat × Nat) :=
  let pieces := [(iv.1, min iv.2 b.start), (max iv.1 b.stop, iv.2)]
  pieces.filter (fun p => p.1 < p.2)

/-- Subtract every break of a rule from an interval. -/
def subtractBreaks (iv : Nat × Nat) (breaks : List BreakItem) :
    List (Nat × Nat) :=
  breaks.foldl (fun ivs b => ivs.flatMap (fun iv => subtractBreak iv b)) [iv]

/-- Modelled from the spec: spec §4.1 step 5 — a recurring rule's
contribution is its `[start_time, end_time]` window minus its breaks, each
sub-interval inheriting the rule's `buffer_minutes` and `max_bookings`. -/
def ruleContribution (r : AvailRule) : List Window :=
  match r.start_time, r.end_time with
  | some s, some e =>
      (subtractBreaks (s, e) r.breaks).map (fun iv =>
        { start := iv.1, stop := iv.2
          buffer_minutes := r.buffer_minutes
          max_bookings := r.max_bookings })
  | _, _ => []

/-- Merge two windows that overlap or touch (keeping the earlier window's
booking settings, a modelling choice the spec leaves open). -/
def mergeStep (acc : List Window) (w : Window) : List Window :=
  match acc.getLast? with
  | some last =>
      if w.start ≤ last.stop then
        acc.dropLast ++ [{ last with stop := max last.stop w.stop }]
      else acc ++ [w]
  | none => [w]

/-- Modelled from the spec: spec §4.1 step 3 — union of the windows of
equal top priority, merging those that overlap or touch. -/
def mergeWindows (ws : List Window) : List Window :=
  ((ws.mergeSort (fun a b => a.start ≤ b.start)).foldl mergeStep [])

/-- Modelled from the spec: spec §4.1 step 4 — apply one exception whose
date range covers the date: if `is_available = false` and there are no
`custom_hours`, clear the result to empty; if `custom_hours` has an entry
for the date's weekday, that interval replaces the result. -/
def applyException (wd : Weekday) (d : PyDate) (acc : List Window)
    (e : AvailException) : List Window :=
  if e.is_active && PyDate.ble e.start_date d && PyDate.ble d e.end_date then
    match e.custom_hours with
    | none => if e.is_available then acc else []
    | some hours =>
        match hours.lookup wd with
        | some w => [w]
        | none => acc
  else acc

/-- Modelled from the spec: the repository has no `resolveAvailability`
implementation, so spec §4.1 is modelled from its words: (1) select the
provider's active recurring rules for the date's weekday; (2) no rule ⇒
unavailable; (3) keep only the rules of top priority and union their
break-subtracted contributions; (4) apply every exception covering the
date. -/
def resolveAvailability (rules : List AvailRule) (excs : List AvailException)
    (provider_id : Nat) (d : PyDate) : List Window :=
  let wd := d.weekday
  let dayRules := rules.filter (fun r =>
    decide (r.provider_id = provider_id) && r.is_active &&
      decide (r.availability_type = AvailabilityType.recurring) &&
      decide (r.day_of_week = some wd) && r.is_available)
  let base :=
    match (dayRules.map (·.priority)).max? with
    | none => []
    | some top =>
        mergeWindows
          ((dayRules.filter (fun r => decide (r.priority = top))).flatMap
            ruleContribution)
  excs.foldl (applyException wd d) base

/-! ## Concrete stores used by witnesses and counterexamples -/

/-- 2024-01-08, a Monday. -/
def exDate : PyDate := ⟨2024, 1, 8⟩

def exProvider : Provider := ⟨1, 1⟩

/-- A scheduled, unassigned appointment for service `"Consult"` at 09:00
on `exDate`. -/
def exAppointmentA : Appointment :=
  { id := 10, provider_id := 1, client_name := "Dana"
    service_name := "Consult", scheduled_at := some ⟨exDate, 32400000000⟩
    status := AppointmentStatus.scheduled, queue_id := none }

/-- A store holding one provider and one unassigned appointment. -/
def exDB3 : DB :=
  { providers := [exProvider], queues := [], appointments := [exAppointmentA]
    entries := [], nextQueueId := 1, nextEntryId := 1, failingProviders := [] }

/-- The daily queue for `(provider 1, "Consult", exDate)`. -/
def exQueueA : Queue :=
  { id := 1, provider_id := 1, name := "Consult - January 08, 2024"
    description := "", service_name := "Consult", queue_date := exDate
    status := QueueStatus.active, max_size := 100
    estimated_wait_time := some 30 }

/-- A different daily queue, `(provider 1, "Followup", exDate)`. -/
def exQueueB : Queue :=
  { id := 2, provider_id := 1, name := "Followup - January 08, 2024"
    description := "", service_name := "Followup", queue_date := exDate
    status := QueueStatus.active, max_size := 100
    estimated_wait_time := some 30 }

/-- A `"Consult"` appointment currently linked to queue 2 (the
`"Followup"` queue). -/
def exAppointmentB : Appointment :=
  { exAppointmentA with queue_id := some 2 }

/-- A store where appointment 10 is already linked to queue 2. -/
def exDB2 : DB :=
  { providers := [exProvider], queues := [exQueueA, exQueueB]
    appointments := [exAppointmentB], entries := []
    nextQueueId := 3, nextEntryId := 1, failingProviders := [] }

/-- Two providers where processing the first raises a runtime error. -/
def exDB4 : DB :=
  { providers := [⟨1, 1⟩, ⟨2, 1⟩], queues := [], appointments := []
    entries := [], nextQueueId := 1, nextEntryId := 1, failingProviders := [1] }

/-- An active queue dated 2024-01-05, before `exDate`. -/
def exQueuePast : Queue :=
  { exQueueA with id := 3, queue_date := ⟨2024, 1, 5⟩ }

/-- A store with one stale active queue. -/
def exDB5 : DB := { exDB3 with queues := [exQueuePast] }

/-- A walk-in join request aimed at queue 1. -/
def exEntryCreate : QueueEntryCreate :=
  { queue_id := 1, client_name := "Walkin", client_phone := none
    client_email := none, notes := none }

/-- A store with queue 1 present but no entries. -/
def exDBE0 : DB :=
  { providers := [exProvider], queues := [exQueueA], appointments := []
    entries := [], nextQueueId := 2, nextEntryId := 0, failingProviders := [] }

/-- A waiting entry at position 1 of queue 1. -/
def exEntry1 : QueueEntry :=
  { id := 0, queue_id := 1, client_name := "Walkin", client_phone := none
    client_email := none, position := 1, status := QueueEntryStatus.waiting
    notes := none, called_at := none, completed_at := none
    estimated_wait_time := none }

/-- A store whose queue 1 holds the single waiting entry `exEntry1`. -/
def exDBE1 : DB := { exDBE0 with entries := [exEntry1], nextEntryId := 1 }

/-- A body requesting the transition to `cancelled`. -/
def exCancelUpd : QueueEntryUpdate :=
  { QueueEntryUpdate.empty with status := some QueueEntryStatus.cancelled }

/-- A body requesting the entry's current status (`waiting`) again. -/
def exSameUpd : QueueEntryUpdate :=
  { QueueEntryUpdate.empty with status := some QueueEntryStatus.waiting }

/-- A body requesting the transition to `called`. -/
def exCallUpd : QueueEntryUpdate :=
  { QueueEntryUpdate.empty with status := some QueueEntryStatus.called }

/-- A recurring Monday 09:00–17:00 rule. -/
def exRule : AvailRule :=
  { provider_id := 1, availability_type := AvailabilityType.recurring
    day_of_week := some Weekday.monday, start_time := some 540
    end_time := some 1020, specific_date := none, is_available := true
    breaks := [], max_bookings := none, buffer_minutes := 0, priority := 0
    is_active := true }

/-- A vacation exception covering 2024-01-01 .. 2024-01-14, fully
unavailable, no custom hours. -/
def exVacation : AvailException :=
  { provider_id := 1, start_date := ⟨2024, 1, 1⟩, end_date := ⟨2024, 1, 14⟩
    is_available := false, custom_hours := none, is_active := true }

/-! ## Lemmas about the queue registry -/

theorem queueKeyMatch_iff {p : Nat} {s : String} {d : PyDate} {q : Queue} :
    queueKeyMatch p s d q = true ↔
      q.provider_id = p ∧ q.service_name = s ∧ q.queue_date = d := by
  simp [queueKeyMatch, and_assoc]

theorem mkDailyQueue_key (db : DB) (p : Nat) (s : String) (d : PyDate) :
    queueKeyMatch p s d (mkDailyQueue db p s d) = true := by
  simp [queueKeyMatch, mkDailyQueue]

/-- The queue returned by `get_or_create_daily_queue` carries exactly the
requested key. -/
theorem get_or_create_key (db : DB) (p : Nat) (s : String) (d : PyDate) :
    (get_or_create_daily_queue db p s d).1.provider_id = p ∧
    (get_or_create_daily_queue db p s d).1.service_name = s ∧
    (get_or_create_daily_queue db p s d).1.queue_date = d := by
  unfold get_or_create_daily_queue
  cases hfind : db.queues.find? (queueKeyMatch p s d) with
  | some q =>
      have hq := List.find?_some hfind
      simpa [queueKeyMatch_iff] using hq
  | none => simp [mkDailyQueue]

/-- The queue returned by `get_or_create_daily_queue` is a row of the
resulting store. -/
theorem get_or_create_mem (db : DB) (p : Nat) (s : String) (d : PyDate) :
    (get_or_create_daily_queue db p s d).1 ∈
      (get_or_create_daily_queue db p s d).2.queues := by
  unfold get_or_create_daily_queue
  cases hfind : db.queues.find? (queueKeyMatch p s d) with
  | some q => simpa using List.mem_of_find?_eq_some hfind
  | none => simp

/-- A second `get_or_create_daily_queue` with the same key returns the
same queue and the same store: the first call left a (unique) row for the
key and the second call finds it. -/
theorem get_or_create_stable (db : DB) (p : Nat) (s : String) (d : PyDate) :
    get_or_create_daily_queue (get_or_create_daily_queue db p s d).2 p s d
      = get_or_create_daily_queue db p s d := by
  unfold get_or_create_daily_queue
  cases hfind : db.queues.find? (queueKeyMatch p s d) with
  | some q => simp [hfind]
  | none =>
      simp only [hfind]
      have hfind2 : (db.queues ++ [mkDailyQueue db p s d]).find?
          (queueKeyMatch p s d) = some (mkDailyQueue db p s d) := by
        rw [List.find?_append, hfind]
        simp [List.find?_cons, mkDailyQueue_key]
      simp [hfind2]

/-- `get_or_create_daily_queue` grows a key's row count to at most
`max 1` of its previous value, for every key. -/
theorem get_or_create_keyCount_le (db : DB) (p : Nat) (s : String) (d : PyDate)
    (p' : Nat) (s' : String) (d' : PyDate) :
    keyCount (get_or_create_daily_queue db p s d).2 p' s' d'
      ≤ max 1 (keyCount db p' s' d') := by
  unfold get_or_create_daily_queue
  cases hfind : db.queues.find? (queueKeyMatch p s d) with
  | some q => simp [keyCount]
  | none =>
      simp only [keyCount, List.filter_append, List.length_append]
      by_cases hmatch : queueKeyMatch p' s' d' (mkDailyQueue db p s d) = true
      · have hk := queueKeyMatch_iff.mp hmatch
        have hp : p = p' := by simpa [mkDailyQueue] using hk.1
        have hs : s = s' := by simpa [mkDailyQueue] using hk.2.1
        have hd : d = d' := by simpa [mkDailyQueue] using hk.2.2
        subst hp; subst hs; subst hd
        have hempty : db.queues.filter (queueKeyMatch p s d) = [] := by
          rw [List.filter_eq_nil_iff]
          intro q hq
          exact (List.find?_eq_none.mp hfind) q hq
        simp [hempty, hmatch]
      · rw [Bool.not_eq_true] at hmatch
        simp [hmatch]

/-- `get_or_create_daily_queue` never mutates an existing queue row:
the resulting queue list extends the old one. -/
theorem get_or_create_queues_prefix (db : DB) (p : Nat) (s : String) (d : PyDate) :
    (get_or_create_daily_queue db p s d).2.queues = db.queues ∨
    (get_or_create_daily_queue db p s d).2.queues
      = db.queues ++ [mkDailyQueue db p s d] := by
  unfold get_or_create_daily_queue
  cases hfind : db.queues.find? (queueKeyMatch p s d) with
  | some q => simp [hfind]
  | none => simp [hfind]

/-- `get_or_create_daily_queue` leaves providers, appointments and
entries untouched. -/
theorem get_or_create_frame (db : DB) (p : Nat) (s : String) (d : PyDate) :
    (get_or_create_daily_queue db p s d).2.providers = db.providers ∧
    (get_or_create_daily_queue db p s d).2.appointments = db.appointments ∧
    (get_or_create_daily_queue db p s d).2.entries = db.entries ∧
    (get_or_create_daily_queue db p s d).2.failingProviders = db.failingProviders := by
  unfold get_or_create_daily_queue
  cases hfind : db.queues.find? (queueKeyMatch p s d) with
  | some q => simp [hfind]
  | none => simp [hfind]

/-- C1: `getOrCreateQueue` is idempotent per key: for every
`(provider_id, service_name, date)`, calling it twice in sequence returns
`Queue` values with the same `id`, creates no second queue row for that
key (the store after the second call is the store after the first, so in
particular the key's row count is unchanged), and the second call leaves
the existing queue's settings (`name`, `status`, `max_size`,
`estimated_wait_time`) unchanged. -/
theorem getOrCreateQueue_idempotent (db : DB) (p : Nat) (s : String) (d : PyDate) :
    (get_or_create_daily_queue (get_or_create_daily_queue db p s d).2 p s d).1.id
        = (get_or_create_daily_queue db p s d).1.id ∧
    (get_or_create_daily_queue (get_or_create_daily_queue db p s d).2 p s d).2
        = (get_or_create_daily_queue db p s d).2 ∧
    keyCount (get_or_create_daily_queue (get_or_create_daily_queue db p s d).2 p s d).2 p s d
        = keyCount (get_or_create_daily_queue db p s d).2 p s d ∧
    (get_or_create_daily_queue (get_or_create_daily_queue db p s d).2 p s d).1.name
        = (get_or_create_daily_queue db p s d).1.name ∧
    (get_or_create_daily_queue (get_or_create_daily_queue db p s d).2 p s d).1.status
        = (get_or_create_daily_queue db p s d).1.status ∧
    (get_or_create_daily_queue (get_or_create_daily_queue db p s d).2 p s d).1.max_size
        = (get_or_create_daily_queue db p s d).1.max_size ∧
    (get_or_create_daily_queue (get_or_create_daily_queue db p s d).2 p s d).1.estimated_wait_time
        = (get_or_create_daily_queue db p s d).1.estimated_wait_time := by
  rw [get_or_create_stable]
  exact ⟨rfl, rfl, rfl, rfl, rfl, rfl, rfl⟩

/-! ## Lemmas about dates -/

theorem PyDate.blt_irrefl (a : PyDate) : PyDate.blt a a = false := by
  simp [PyDate.blt]

theorem PyDate.blt_asymm {a b : PyDate} (h1 : PyDate.blt a b = true)
    (h2 : PyDate.blt b a = true) : False := by
  simp only [PyDate.blt, Bool.or_eq_true, Bool.and_eq_true, beq_iff_eq,
    decide_eq_true_eq] at h1 h2
  omega

/-- A datetime lying between `start_of_day(d)` and `end_of_day(d)` has
calendar date `d`. -/
theorem date_of_between {d : PyDate} {dt : PyDateTime}
    (h1 : PyDateTime.ble (startOfDay d) dt = true)
    (h2 : PyDateTime.ble dt (endOfDay d) = true) : dt.date = d := by
  simp only [PyDateTime.ble, startOfDay, endOfDay, PyDate.blt, Bool.or_eq_true,
    Bool.and_eq_true, beq_iff_eq, decide_eq_true_eq] at h1 h2
  cases dt with
  | mk date tod =>
      cases date with
      | mk y m dd =>
          cases d with
          | mk y0 m0 d0 =>
              simp only at h1 h2 ⊢
              simp only [PyDate.mk.injEq] at h1 h2 ⊢
              omega

/-- What the day-query filter of `create_daily_queues_for_provider`
guarantees about a fetched appointment. -/
theorem dailyAppointmentMatch_spec {pid : Nat} {d : PyDate} {a : Appointment}
    (h : dailyAppointmentMatch pid d a = true) :
    a.provider_id = pid ∧ ∃ dt, a.scheduled_at = some dt ∧ dt.date = d := by
  unfold dailyAppointmentMatch at h
  rw [Bool.and_eq_true, Bool.and_eq_true] at h
  obtain ⟨⟨hp, hdt⟩, _⟩ := h
  refine ⟨by simpa using hp, ?_⟩
  cases hsch : a.scheduled_at with
  | none => rw [hsch] at hdt; simp at hdt
  | some dt =>
      rw [hsch] at hdt
      rw [Bool.and_eq_true] at hdt
      exact ⟨dt, rfl, date_of_between hdt.1 hdt.2⟩

/-! ## Lemmas about the bulk daily-queue creation -/

theorem assignServiceStep_queues (apts : List Appointment) (s : String)
    (qid : Nat) (db : DB) :
    (assignServiceStep apts s qid db).queues = db.queues := rfl

theorem assignServiceStep_length (apts : List Appointment) (s : String)
    (qid : Nat) (db : DB) :
    (assignServiceStep apts s qid db).appointments.length
      = db.appointments.length := by
  simp [assignServiceStep]

theorem assignServiceStep_getElem (apts : List Appointment) (s : String)
    (qid : Nat) (db : DB) (j : Nat) (hj : j < db.appointments.length)
    (hj' : j < (assignServiceStep apts s qid db).appointments.length) :
    (assignServiceStep apts s qid db).appointments[j]
      = (if ((apts.filter (fun a => decide (a.service_name = s))).map (·.id)).contains
            (db.appointments[j]).id && decide ((db.appointments[j]).queue_id = none) then
          { db.appointments[j] with queue_id := some qid }
        else db.appointments[j]) := by
  simp [assignServiceStep]

/-- The assignment sweep never changes a row whose `queue_id` is already
set. -/
theorem assignServiceStep_preserves_assigned (apts : List Appointment)
    (s : String) (qid : Nat) (db : DB) (j : Nat)
    (hj : j < db.appointments.length)
    (hj' : j < (assignServiceStep apts s qid db).appointments.length)
    (hne : (db.appointments[j]).queue_id ≠ none) :
    (assignServiceStep apts s qid db).appointments[j] = db.appointments[j] := by
  rw [assignServiceStep_getElem apts s qid db j hj hj']
  simp [hne]

theorem createDailyQueuesGo_appt_length (pid : Nat) (d : PyDate)
    (apts : List Appointment) :
    ∀ (names : List String) (acc : List Queue) (db : DB),
      (createDailyQueuesGo pid d apts names acc db).2.appointments.length
        = db.appointments.length := by
  intro names
  induction names with
  | nil => intro acc db; rfl
  | cons s rest ih =>
      intro acc db
      show (createDailyQueuesGo pid d apts rest (acc ++ [_])
        (assignServiceStep apts s _ (get_or_create_daily_queue db pid s d).2)).2.appointments.length
          = db.appointments.length
      rw [ih, assignServiceStep_length]
      exact congrArg List.length (get_or_create_frame db pid s d).2.1

theorem createDailyQueuesGo_queues_keyCount (pid : Nat) (d : PyDate)
    (apts : List Appointment) :
    ∀ (names : List String) (acc : List Queue) (db : DB) (p' : Nat)
      (s' : String) (d' : PyDate),
      keyCount (createDailyQueuesGo pid d apts names acc db).2 p' s' d'
        ≤ max 1 (keyCount db p' s' d') := by
  intro names
  induction names with
  | nil => intro acc db p' s' d'; exact Nat.le_max_right _ _
  | cons s rest ih =>
      intro acc db p' s' d'
      show keyCount (createDailyQueuesGo pid d apts rest (acc ++ [_])
        (assignServiceStep apts s _ (get_or_create_daily_queue db pid s d).2)).2 p' s' d'
          ≤ max 1 (keyCount db p' s' d')
      have h1 := ih (acc ++ [(get_or_create_daily_queue db pid s d).1])
        (assignServiceStep apts s (get_or_create_daily_queue db pid s d).1.id
          (get_or_create_daily_queue db pid s d).2) p' s' d'
      have h2 : keyCount (assignServiceStep apts s
          (get_or_create_daily_queue db pid s d).1.id
          (get_or_create_daily_queue db pid s d).2) p' s' d'
            = keyCount (get_or_create_daily_queue db pid s d).2 p' s' d' := rfl
      have h3 := get_or_create_keyCount_le db pid s d p' s' d'
      rw [h2] at h1
      omega

theorem createDailyQueuesGo_preserves_assigned (pid : Nat) (d : PyDate)
    (apts : List Appointment) :
    ∀ (names : List String) (acc : List Queue) (db : DB) (j : Nat)
      (hj : j < db.appointments.length)
      (hj' : j < (createDailyQueuesGo pid d apts names acc db).2.appointments.length),
      (db.appointments[j]).queue_id ≠ none →
      (createDailyQueuesGo pid d apts names acc db).2.appointments[j]
        = db.appointments[j] := by
  intro names
  induction names with
  | nil => intro acc db j hj hj' hne; rfl
  | cons s rest ih =>
      intro acc db j hj hj' hne
      have hframe := (get_or_create_frame db pid s d).2.1
      have hlen1 : (get_or_create_daily_queue db pid s d).2.appointments.length
          = db.appointments.length := congrArg List.length hframe
      have hj1 : j < (get_or_create_daily_queue db pid s d).2.appointments.length := by
        omega
      have hrow1 : (get_or_create_daily_queue db pid s d).2.appointments[j]
          = db.appointments[j] := by
        rw [List.getElem_of_eq hframe]
      have hj2 : j < (assignServiceStep apts s (get_or_create_daily_queue db pid s d).1.id
          (get_or_create_daily_queue db pid s d).2).appointments.length := by
        rw [assignServiceStep_length]; omega
      have hrow2 : (assignServiceStep apts s (get_or_create_daily_queue db pid s d).1.id
          (get_or_create_daily_queue db pid s d).2).appointments[j]
            = db.appointments[j] := by
        rw [assignServiceStep_preserves_assigned _ _ _ _ j hj1 hj2
          (by rw [hrow1]; exact hne)]
        exact hrow1
      show (createDailyQueuesGo pid d apts rest (acc ++ [_])
        (assignServiceStep apts s _ (get_or_create_daily_queue db pid s d).2)).2.appointments[j]
          = db.appointments[j]
      rw [ih (acc ++ [(get_or_create_daily_queue db pid s d).1]) _ j hj2 hj'
        (by rw [hrow2]; exact hne)]
      exact hrow2

theorem create_daily_appt_length (db : DB) (pid : Nat) (d : PyDate) :
    (create_daily_queues_for_provider db pid d).2.appointments.length
      = db.appointments.length := by
  unfold create_daily_queues_for_provider
  exact createDailyQueuesGo_appt_length pid d _ _ _ db

theorem create_daily_keyCount (db : DB) (pid : Nat) (d : PyDate) (p' : Nat)
    (s' : String) (d' : PyDate) :
    keyCount (create_daily_queues_for_provider db pid d).2 p' s' d'
      ≤ max 1 (keyCount db p' s' d') := by
  unfold create_daily_queues_for_provider
  exact createDailyQueuesGo_queues_keyCount pid d _ _ _ db p' s' d'

theorem create_daily_preserves_assigned (db : DB) (pid : Nat) (d : PyDate)
    (j : Nat) (hj : j < db.appointments.length)
    (hj' : j < (create_daily_queues_for_provider db pid d).2.appointments.length)
    (hne : (db.appointments[j]).queue_id ≠ none) :
    (create_daily_queues_for_provider db pid d).2.appointments[j]
      = db.appointments[j] := by
  unfold create_daily_queues_for_provider at hj' ⊢
  exact createDailyQueuesGo_preserves_assigned pid d _ _ _ db j hj hj' hne

/-- C3: for every provider and date, running
`createDailyQueuesForProvider` twice produces no duplicate `Queue` rows
for `(provider, any service, date)` (each key keeps at most one row,
given the storage-level uniqueness the store starts with) and does not
change the `queue_id` of any appointment that was already assigned after
the first run — the second run can only fill in appointments whose
`queue_id` is still null. -/
theorem createDailyQueues_rerun (db : DB) (pid : Nat) (d : PyDate)
    (hkeys : ∀ s, keyCount db pid s d ≤ 1) :
    (∀ s, keyCount (create_daily_queues_for_provider
        (create_daily_queues_for_provider db pid d).2 pid d).2 pid s d ≤ 1) ∧
    (create_daily_queues_for_provider
        (create_daily_queues_for_provider db pid d).2 pid d).2.appointments.length
      = (create_daily_queues_for_provider db pid d).2.appointments.length ∧
    ∀ (j : Nat)
      (hj : j < (create_daily_queues_for_provider db pid d).2.appointments.length)
      (hj' : j < (create_daily_queues_for_provider
          (create_daily_queues_for_provider db pid d).2 pid d).2.appointments.length),
      ((create_daily_queues_for_provider db pid d).2.appointments[j]).queue_id ≠ none →
      (create_daily_queues_for_provider
          (create_daily_queues_for_provider db pid d).2 pid d).2.appointments[j]
        = (create_daily_queues_for_provider db pid d).2.appointments[j] := by
  refine ⟨?_, ?_, ?_⟩
  · intro s
    have h0 := hkeys s
    have h1 := create_daily_keyCount db pid d pid s d
    have h2 := create_daily_keyCount (create_daily_queues_for_provider db pid d).2
      pid d pid s d
    omega
  · exact create_daily_appt_length _ pid d
  · intro j hj hj' hne
    exact create_daily_preserves_assigned _ pid d j hj hj' hne

/-! ## Appointment assignment (claims C2 and C10) -/

/-- C2 counterexample: appointment 10 is already linked to queue 2, yet
`assign_appointment_to_queue` is not a no-op — it returns queue 1 (the
queue of the appointment's own service/date key, not the currently linked
queue) and overwrites the stored `queue_id` from `some 2` to `some 1`. -/
theorem assign_overwrites_counterexample :
    exAppointmentB.queue_id = some 2 ∧
    (assign_appointment_to_queue exDB2 exAppointmentB).1 = some exQueueA ∧
    exQueueA.id = 1 ∧
    ((assign_appointment_to_queue exDB2 exAppointmentB).2.appointments.map
      (·.queue_id)) = [some 1] := by
  refine ⟨rfl, ?_, rfl, ?_⟩ <;> decide

/-- C2 amended: `assign_appointment_to_queue` performs no check of a
pre-existing `queue_id`.  Whenever `scheduled_at` is present and
`service_name` is non-empty, it resolves the queue for
`(provider_id, service_name, date(scheduled_at))` via the registry and
unconditionally overwrites the appointment's `queue_id` with that queue's
id; an appointment already linked to that very queue keeps the same value
(so repetition along the same key is value-idempotent), but a link to any
other queue is silently replaced. -/
theorem assign_always_overwrites (db : DB) (apt : Appointment)
    (dt : PyDateTime) (hdt : apt.scheduled_at = some dt)
    (hsvc : apt.service_name ≠ "") :
    (assign_appointment_to_queue db apt).1
        = some (get_or_create_daily_queue db apt.provider_id apt.service_name dt.date).1 ∧
    ∀ a ∈ (assign_appointment_to_queue db apt).2.appointments,
      a.id = apt.id →
        a.queue_id
          = some (get_or_create_daily_queue db apt.provider_id apt.service_name dt.date).1.id := by
  unfold assign_appointment_to_queue
  rw [hdt]
  simp only [hsvc, if_neg, if_false, reduceCtorEq, not_false_iff]
  constructor
  · trivial
  · intro a ha haid
    obtain ⟨b, hb, rfl⟩ := List.mem_map.mp ha
    by_cases hbid : b.id = apt.id
    · simp [hbid]
    · rw [if_neg hbid] at haid
      exact absurd haid hbid

/-- Witness for the amended C2: re-assigning appointment 10, already
linked to queue 2, yields the key's queue (queue 1). -/
theorem assign_always_overwrites_witness :
    (assign_appointment_to_queue exDB2 exAppointmentB).1 = some exQueueA :=
  (assign_always_overwrites exDB2 exAppointmentB ⟨exDate, 32400000000⟩ rfl
    (by decide)).1.trans (by decide)

/-- Witness for C3 at a concrete store: one provider, one unassigned
appointment, empty queue table. -/
theorem createDailyQueues_rerun_witness :
    keyCount (create_daily_queues_for_provider
      (create_daily_queues_for_provider exDB3 1 exDate).2 1 exDate).2 1 "Consult" exDate
        ≤ 1 :=
  (createDailyQueues_rerun exDB3 1 exDate (fun s => by simp [keyCount, exDB3])).1
    "Consult"

/-! ## The all-providers sweep (claim C4) -/

theorem createDailyQueuesGo_frame (pid : Nat) (d : PyDate)
    (apts : List Appointment) :
    ∀ (names : List String) (acc : List Queue) (db : DB),
      (createDailyQueuesGo pid d apts names acc db).2.providers = db.providers ∧
      (createDailyQueuesGo pid d apts names acc db).2.entries = db.entries ∧
      (createDailyQueuesGo pid d apts names acc db).2.failingProviders
        = db.failingProviders := by
  intro names
  induction names with
  | nil => intro acc db; exact ⟨rfl, rfl, rfl⟩
  | cons s rest ih =>
      intro acc db
      have hstep := ih (acc ++ [(get_or_create_daily_queue db pid s d).1])
        (assignServiceStep apts s (get_or_create_daily_queue db pid s d).1.id
          (get_or_create_daily_queue db pid s d).2)
      have hg := get_or_create_frame db pid s d
      refine ⟨?_, ?_, ?_⟩
      · rw [show (createDailyQueuesGo pid d apts (s :: rest) acc db)
          = createDailyQueuesGo pid d apts rest
              (acc ++ [(get_or_create_daily_queue db pid s d).1])
              (assignServiceStep apts s (get_or_create_daily_queue db pid s d).1.id
                (get_or_create_daily_queue db pid s d).2) from rfl]
        rw [hstep.1]
        exact hg.1
      · rw [show (createDailyQueuesGo pid d apts (s :: rest) acc db)
          = createDailyQueuesGo pid d apts rest
              (acc ++ [(get_or_create_daily_queue db pid s d).1])
              (assignServiceStep apts s (get_or_create_daily_queue db pid s d).1.id
                (get_or_create_daily_queue db pid s d).2) from rfl]
        rw [hstep.2.1]
        exact hg.2.2.1
      · rw [show (createDailyQueuesGo pid d apts (s :: rest) acc db)
          = createDailyQueuesGo pid d apts rest
              (acc ++ [(get_or_create_daily_queue db pid s d).1])
              (assignServiceStep apts s (get_or_create_daily_queue db pid s d).1.id
                (get_or_create_daily_queue db pid s d).2) from rfl]
        rw [hstep.2.2]
        exact hg.2.2.2

theorem create_daily_failing_frame (db : DB) (pid : Nat) (d : PyDate) :
    (create_daily_queues_for_provider db pid d).2.failingProviders
      = db.failingProviders := by
  unfold create_daily_queues_for_provider
  exact (createDailyQueuesGo_frame pid d _ _ _ db).2.2

/-- If any provider of the work list fails, the loop — having no handler
— returns an error. -/
theorem createAllGo_error (d : PyDate) :
    ∀ (ps : List Provider) (acc : List Queue) (db : DB),
      (∃ p ∈ ps, p.id ∈ db.failingProviders) →
      ∃ e, createAllGo d ps acc db = Except.error e := by
  intro ps
  induction ps with
  | nil =>
      intro acc db h
      obtain ⟨p, hp, _⟩ := h
      exact absurd hp (List.not_mem_nil p)
  | cons p rest ih =>
      intro acc db h
      by_cases hp : p.id ∈ db.failingProviders
      · refine ⟨"error processing provider " ++ toString p.id, ?_⟩
        simp [createAllGo, createDailyQueuesForProviderRun, hp]
      · obtain ⟨q, hq, hqf⟩ := h
        rcases List.mem_cons.mp hq with rfl | hqrest
        · exact absurd hqf hp
        · have hrun : createDailyQueuesForProviderRun db p.id d
              = Except.ok (create_daily_queues_for_provider db p.id d) := by
            simp [createDailyQueuesForProviderRun, hp]
          have hfail1 : (create_daily_queues_for_provider db p.id d).2.failingProviders
              = db.failingProviders := create_daily_failing_frame db p.id d
          obtain ⟨e, he⟩ := ih
            (acc ++ (create_daily_queues_for_provider db p.id d).1)
            (create_daily_queues_for_provider db p.id d).2
            ⟨q, hqrest, by rw [hfail1]; exact hqf⟩
          refine ⟨e, ?_⟩
          simp [createAllGo, hrun]
          exact he

/-- If no provider of the work list fails, the loop succeeds. -/
theorem createAllGo_ok (d : PyDate) :
    ∀ (ps : List Provider) (acc : List Queue) (db : DB),
      (∀ p ∈ ps, p.id ∉ db.failingProviders) →
      ∃ r, createAllGo d ps acc db = Except.ok r := by
  intro ps
  induction ps with
  | nil => intro acc db _; exact ⟨(acc, db), rfl⟩
  | cons p rest ih =>
      intro acc db h
      have hp : p.id ∉ db.failingProviders := h p (List.mem_cons.mpr (Or.inl rfl))
      have hrun : createDailyQueuesForProviderRun db p.id d
          = Except.ok (create_daily_queues_for_provider db p.id d) := by
        simp [createDailyQueuesForProviderRun, hp]
      have hfail1 : (create_daily_queues_for_provider db p.id d).2.failingProviders
          = db.failingProviders := create_daily_failing_frame db p.id d
      obtain ⟨r, hr⟩ := ih
        (acc ++ (create_daily_queues_for_provider db p.id d).1)
        (create_daily_queues_for_provider db p.id d).2
        (fun q hq => by rw [hfail1]; exact h q (List.mem_cons.mpr (Or.inr hq)))
      refine ⟨r, ?_⟩
      simp [createAllGo, hrun]
      exact hr

/-- C4 counterexample: two providers, a runtime error while processing
provider 1.  The sweep returns the bare error — nothing is caught or
recorded, provider 2 (which on its own processes fine) is never reached,
and no per-provider outcome aggregation exists in the result. -/
theorem createAll_error_counterexample :
    create_daily_queues_for_all_providers exDB4 exDate
      = Except.error "error processing provider 1" ∧
    createDailyQueuesForProviderRun exDB4 2 exDate
      = Except.ok ([], exDB4) := by
  constructor
  · rfl
  · rfl

/-- C4 amended: `create_daily_queues_for_all_providers` has no
per-provider error isolation: if processing any provider of the list
raises, the error propagates uncaught and the sweep returns it (so the
remaining providers are not processed and no per-provider outcomes are
aggregated); only when every provider processes cleanly does the sweep
return a result. -/
theorem createAll_no_error_isolation :
    (∀ (d : PyDate) (db : DB),
      (∃ p ∈ db.providers, p.id ∈ db.failingProviders) →
      ∃ e, create_daily_queues_for_all_providers db d = Except.error e) ∧
    (∀ (d : PyDate) (db : DB),
      (∀ p ∈ db.providers, p.id ∉ db.failingProviders) →
      ∃ r, create_daily_queues_for_all_providers db d = Except.ok r) := by
  constructor
  · intro d db h
    exact createAllGo_error d db.providers [] db h
  · intro d db h
    exact createAllGo_ok d db.providers [] db h

/-- Witness for the amended C4: the store with a failing provider errors;
the store without one succeeds. -/
theorem createAll_no_error_isolation_witness :
    (∃ e, create_daily_queues_for_all_providers exDB4 exDate = Except.error e) ∧
    (∃ r, create_daily_queues_for_all_providers exDB3 exDate = Except.ok r) :=
  ⟨createAll_no_error_isolation.1 exDate exDB4
      ⟨⟨1, 1⟩, by decide, by decide⟩,
    createAll_no_error_isolation.2 exDate exDB3 (by decide)⟩

/-! ## Closing past queues (claim C5) -/

/-- C5: `closePastQueues(T)` transitions exactly the active queues dated
before `T` to closed, leaves every queue dated `≥ T` unchanged, never
touches a closed or paused queue, and an immediately repeated call with
the same `T` closes zero additional rows. -/
theorem closePastQueues_spec (db : DB) (T : PyDate) :
    (close_past_queues db T).2.queues.length = db.queues.length ∧
    (∀ (j : Nat) (hj : j < db.queues.length)
      (hj' : j < (close_past_queues db T).2.queues.length),
      ((db.queues[j]).status = QueueStatus.active ∧
          PyDate.blt (db.queues[j]).queue_date T = true →
        (close_past_queues db T).2.queues[j]
          = { db.queues[j] with status := QueueStatus.closed }) ∧
      (PyDate.blt (db.queues[j]).queue_date T = false →
        (close_past_queues db T).2.queues[j] = db.queues[j]) ∧
      ((db.queues[j]).status ≠ QueueStatus.active →
        (close_past_queues db T).2.queues[j] = db.queues[j])) ∧
    (close_past_queues (close_past_queues db T).2 T).1 = 0 := by
  have hq2 : (close_past_queues db T).2.queues = db.queues.map (closeRow T) := rfl
  refine ⟨by rw [hq2]; exact List.length_map _ _, ?_, ?_⟩
  · intro j hj hj'
    have hrowC5 : (close_past_queues db T).2.queues[j] = closeRow T db.queues[j] := by
      rw [List.getElem_of_eq hq2 hj', List.getElem_map]
    refine ⟨?_, ?_, ?_⟩
    · intro hcond
      have hm : pastActiveMatch T db.queues[j] = true := by
        simp [pastActiveMatch, hcond.1, hcond.2]
      rw [hrowC5, closeRow, if_pos hm]
    · intro hblt
      have hm : pastActiveMatch T db.queues[j] = false := by
        simp [pastActiveMatch, hblt]
      rw [hrowC5, closeRow, if_neg (by simp [hm])]
    · intro hstat
      have hm : pastActiveMatch T db.queues[j] = false := by
        simp [pastActiveMatch, hstat]
      rw [hrowC5, closeRow, if_neg (by simp [hm])]
  · have hnone : ∀ q ∈ (close_past_queues db T).2.queues,
        pastActiveMatch T q = false := by
      intro q hq
      rw [hq2] at hq
      obtain ⟨b, hb, rfl⟩ := List.mem_map.mp hq
      by_cases hpb : pastActiveMatch T b = true
      · rw [closeRow, if_pos hpb]
        simp [pastActiveMatch]
      · rw [Bool.not_eq_true] at hpb
        rw [closeRow, if_neg (by simp [hpb])]
        exact hpb
    have hfilter : (close_past_queues db T).2.queues.filter (pastActiveMatch T) = [] :=
      List.filter_eq_nil_iff.mpr (fun a ha => by rw [hnone a ha]; exact Bool.false_ne_true)
    show ((close_past_queues db T).2.queues.filter (pastActiveMatch T)).length = 0
    rw [hfilter]
    rfl

/-- Witness for C5 at a store with one stale active queue. -/
theorem closePastQueues_spec_witness :
    (close_past_queues (close_past_queues exDB5 exDate).2 exDate).1 = 0 :=
  (closePastQueues_spec exDB5 exDate).2.2

/-! ## The link invariant (claim C10) -/

/-- Queues are never removed by the bulk-creation loop. -/
theorem createDailyQueuesGo_queues_mono (pid : Nat) (d : PyDate)
    (apts : List Appointment) :
    ∀ (names : List String) (acc : List Queue) (db : DB) (q : Queue),
      q ∈ db.queues → q ∈ (createDailyQueuesGo pid d apts names acc db).2.queues := by
  intro names
  induction names with
  | nil => intro acc db q hq; exact hq
  | cons s rest ih =>
      intro acc db q hq
      have hq1 : q ∈ (get_or_create_daily_queue db pid s d).2.queues := by
        rcases get_or_create_queues_prefix db pid s d with h | h
        · rw [h]; exact hq
        · rw [h]; exact List.mem_append_left _ hq
      exact ih (acc ++ [(get_or_create_daily_queue db pid s d).1])
        (assignServiceStep apts s (get_or_create_daily_queue db pid s d).1.id
          (get_or_create_daily_queue db pid s d).2) q hq1

/-- With unique primary keys, two rows of the store with equal `id` are
the same row. -/
theorem row_unique {l : List Appointment}
    (h : (l.map (·.id)).Nodup) {a b : Appointment} (ha : a ∈ l) (hb : b ∈ l)
    (hid : a.id = b.id) : a = b :=
  List.inj_on_of_nodup_map h ha hb hid

/-- Every `queue_id` newly written by the bulk-creation loop names a
queue of the resulting store whose key matches the appointment row:
same provider, same service, queue dated on the appointment's scheduled
calendar day. -/
theorem createDailyQueuesGo_links (pid : Nat) (d : PyDate)
    (apts : List Appointment)
    (hmatch : ∀ a ∈ apts, dailyAppointmentMatch pid d a = true) :
    ∀ (names : List String) (acc : List Queue) (db : DB),
      (∀ a ∈ apts, ∀ (j : Nat) (hj : j < db.appointments.length),
        (db.appointments[j]).id = a.id →
          (db.appointments[j]).provider_id = a.provider_id ∧
          (db.appointments[j]).service_name = a.service_name ∧
          (db.appointments[j]).scheduled_at = a.scheduled_at) →
      ∀ (j : Nat) (hj : j < db.appointments.length)
        (hj' : j < (createDailyQueuesGo pid d apts names acc db).2.appointments.length),
        ((createDailyQueuesGo pid d apts names acc db).2.appointments[j]).queue_id
            ≠ (db.appointments[j]).queue_id →
        ∃ q ∈ (createDailyQueuesGo pid d apts names acc db).2.queues,
          ((createDailyQueuesGo pid d apts names acc db).2.appointments[j]).queue_id
              = some q.id ∧
          q.provider_id = (db.appointments[j]).provider_id ∧
          q.service_name = (db.appointments[j]).service_name ∧
          ∃ dt, (db.appointments[j]).scheduled_at = some dt ∧ q.queue_date = dt.date := by
  intro names
  induction names with
  | nil =>
      intro acc db hcons j hj hj' hne
      exact absurd rfl hne
  | cons s rest ih =>
      intro acc db hcons j hj hj' hne
      have hframe := (get_or_create_frame db pid s d).2.1
      have hlen1 : (get_or_create_daily_queue db pid s d).2.appointments.length
          = db.appointments.length := congrArg List.length hframe
      have hj1 : j < (get_or_create_daily_queue db pid s d).2.appointments.length := by
        omega
      have hrow1 : (get_or_create_daily_queue db pid s d).2.appointments[j]
          = db.appointments[j] := by
        rw [List.getElem_of_eq hframe]
      have hj2 : j < (assignServiceStep apts s
          (get_or_create_daily_queue db pid s d).1.id
          (get_or_create_daily_queue db pid s d).2).appointments.length := by
        rw [assignServiceStep_length]; omega
      have hrow2 := assignServiceStep_getElem apts s
        (get_or_create_daily_queue db pid s d).1.id
        (get_or_create_daily_queue db pid s d).2 j hj1 hj2
      rw [hrow1] at hrow2
      have hj3 : j < (createDailyQueuesGo pid d apts rest
          (acc ++ [(get_or_create_daily_queue db pid s d).1])
          (assignServiceStep apts s (get_or_create_daily_queue db pid s d).1.id
            (get_or_create_daily_queue db pid s d).2)).2.appointments.length := hj'
      have hne2 : ((createDailyQueuesGo pid d apts rest
          (acc ++ [(get_or_create_daily_queue db pid s d).1])
          (assignServiceStep apts s (get_or_create_daily_queue db pid s d).1.id
            (get_or_create_daily_queue db pid s d).2)).2.appointments[j]).queue_id
          ≠ (db.appointments[j]).queue_id := hne
      have hfinal : ∃ q ∈ (createDailyQueuesGo pid d apts rest
          (acc ++ [(get_or_create_daily_queue db pid s d).1])
          (assignServiceStep apts s (get_or_create_daily_queue db pid s d).1.id
            (get_or_create_daily_queue db pid s d).2)).2.queues,
          ((createDailyQueuesGo pid d apts rest
            (acc ++ [(get_or_create_daily_queue db pid s d).1])
            (assignServiceStep apts s (get_or_create_daily_queue db pid s d).1.id
              (get_or_create_daily_queue db pid s d).2)).2.appointments[j]).queue_id
              = some q.id ∧
          q.provider_id = (db.appointments[j]).provider_id ∧
          q.service_name = (db.appointments[j]).service_name ∧
          ∃ dt, (db.appointments[j]).scheduled_at = some dt ∧ q.queue_date = dt.date := by
        by_cases hguard : (((apts.filter (fun a => decide (a.service_name = s))).map
              (·.id)).contains (db.appointments[j]).id
            && decide ((db.appointments[j]).queue_id = none)) = true
        · -- assigned in this iteration, then kept (its queue_id is set)
          rw [if_pos hguard] at hrow2
          have hguard2 := hguard
          rw [Bool.and_eq_true] at hguard2
          obtain ⟨hcontains, hnil⟩ := hguard2
          obtain ⟨a, ⟨hamem, hasvc2⟩, haid⟩ :=
            (by simpa using hcontains :
              ∃ a, (a ∈ apts ∧ a.service_name = s) ∧ a.id = (db.appointments[j]).id)
          obtain ⟨hprov, hsvc, hsch⟩ := hcons a hamem j hj haid.symm
          obtain ⟨haprov, dt, hadt, haday⟩ :=
            dailyAppointmentMatch_spec (hmatch a hamem)
          have hkeep := createDailyQueuesGo_preserves_assigned pid d apts rest
            (acc ++ [(get_or_create_daily_queue db pid s d).1])
            (assignServiceStep apts s (get_or_create_daily_queue db pid s d).1.id
              (get_or_create_daily_queue db pid s d).2) j hj2 hj3
            (by rw [hrow2]; simp)
          have hkey := get_or_create_key db pid s d
          refine ⟨(get_or_create_daily_queue db pid s d).1,
            createDailyQueuesGo_queues_mono pid d apts rest _ _ _
              (get_or_create_mem db pid s d), ?_, ?_, ?_, ?_⟩
          · rw [hkeep, hrow2]
          · rw [hkey.1, hprov, haprov]
          · rw [hkey.2.1, hsvc, hasvc2]
          · exact ⟨dt, by rw [hsch, hadt], by rw [hkey.2.2, haday]⟩
        · -- untouched in this iteration; defer to the remaining loop
          rw [Bool.not_eq_true] at hguard
          rw [hguard] at hrow2
          rw [if_neg (by simp)] at hrow2
          have hcons2 : ∀ a ∈ apts, ∀ (k : Nat)
              (hk : k < (assignServiceStep apts s
                (get_or_create_daily_queue db pid s d).1.id
                (get_or_create_daily_queue db pid s d).2).appointments.length),
              ((assignServiceStep apts s (get_or_create_daily_queue db pid s d).1.id
                  (get_or_create_daily_queue db pid s d).2).appointments[k]).id = a.id →
                ((assignServiceStep apts s (get_or_create_daily_queue db pid s d).1.id
                    (get_or_create_daily_queue db pid s d).2).appointments[k]).provider_id
                    = a.provider_id ∧
                ((assignServiceStep apts s (get_or_create_daily_queue db pid s d).1.id
                    (get_or_create_daily_queue db pid s d).2).appointments[k]).service_name
                    = a.service_name ∧
                ((assignServiceStep apts s (get_or_create_daily_queue db pid s d).1.id
                    (get_or_create_daily_queue db pid s d).2).appointments[k]).scheduled_at
                    = a.scheduled_at := by
            intro a ha k hk hkid
            have hk0 : k < db.appointments.length := by
              have := assignServiceStep_length apts s
                (get_or_create_daily_queue db pid s d).1.id
                (get_or_create_daily_queue db pid s d).2
              omega
            have hk1 : k < (get_or_create_daily_queue db pid s d).2.appointments.length := by
              omega
            have hrowk := assignServiceStep_getElem apts s
              (get_or_create_daily_queue db pid s d).1.id
              (get_or_create_daily_queue db pid s d).2 k hk1 hk
            have hrowk0 : (get_or_create_daily_queue db pid s d).2.appointments[k]
                = db.appointments[k] := by
              rw [List.getElem_of_eq hframe]
            rw [hrowk0] at hrowk
            by_cases hg : (((apts.filter (fun a => decide (a.service_name = s))).map
                  (·.id)).contains (db.appointments[k]).id
                && decide ((db.appointments[k]).queue_id = none)) = true
            · rw [if_pos hg] at hrowk
              rw [hrowk] at hkid ⊢
              exact hcons a ha k hk0 hkid
            · rw [Bool.not_eq_true] at hg
              rw [hg] at hrowk
              rw [if_neg (by simp)] at hrowk
              rw [hrowk] at hkid ⊢
              exact hcons a ha k hk0 hkid
          obtain ⟨q, hqmem, hqid, hqp, hqs, hqdt⟩ := ih
            (acc ++ [(get_or_create_daily_queue db pid s d).1])
            (assignServiceStep apts s (get_or_create_daily_queue db pid s d).1.id
              (get_or_create_daily_queue db pid s d).2) hcons2 j hj2 hj3
            (by rw [hrow2]; exact hne2)
          rw [hrow2] at hqp hqs hqdt
          exact ⟨q, hqmem, hqid, hqp, hqs, hqdt⟩
      exact hfinal

/-- The queue returned by a successful `assign_appointment_to_queue`
carries the appointment's provider, service and scheduled calendar
date. -/
theorem assign_returns_key_queue (db : DB) (apt : Appointment) (q : Queue)
    (db2 : DB) (h : assign_appointment_to_queue db apt = (some q, db2)) :
    q.provider_id = apt.provider_id ∧ q.service_name = apt.service_name ∧
    ∃ dt, apt.scheduled_at = some dt ∧ q.queue_date = dt.date := by
  unfold assign_appointment_to_queue at h
  cases hdt : apt.scheduled_at with
  | none => rw [hdt] at h; simp [Prod.ext_iff] at h
  | some dt =>
      rw [hdt] at h
      by_cases hsvc : apt.service_name = ""
      · simp [hsvc, Prod.ext_iff] at h
      · simp only [if_neg hsvc] at h
        have hq : (get_or_create_daily_queue db apt.provider_id
            apt.service_name dt.date).1 = q := by
          have h1 := congrArg Prod.fst h
          simpa using h1
        have hkey := get_or_create_key db apt.provider_id apt.service_name dt.date
        rw [hq] at hkey
        exact ⟨hkey.1, hkey.2.1, dt, rfl, hkey.2.2⟩

/-- C10: whenever `assignAppointment` returns a `Queue`, that queue's
`service_name` equals the appointment's `service_name`, its `queue_date`
equals the calendar date of the appointment's `scheduled_at`, and its
`provider_id` equals the appointment's `provider_id`; and after
`createDailyQueuesForProvider` (the other engine operation that links
appointments to queues), every appointment whose `queue_id` changed now
points to a queue of the resulting store matching it the same way, given
unique appointment primary keys. -/
theorem linked_queue_matches_appointment :
    (∀ (db : DB) (apt : Appointment) (q : Queue) (db2 : DB),
      assign_appointment_to_queue db apt = (some q, db2) →
      q.provider_id = apt.provider_id ∧ q.service_name = apt.service_name ∧
      ∃ dt, apt.scheduled_at = some dt ∧ q.queue_date = dt.date) ∧
    (∀ (db : DB) (pid : Nat) (d : PyDate),
      (db.appointments.map (·.id)).Nodup →
      ∀ (j : Nat) (hj : j < db.appointments.length)
        (hj' : j < (create_daily_queues_for_provider db pid d).2.appointments.length),
        ((create_daily_queues_for_provider db pid d).2.appointments[j]).queue_id
            ≠ (db.appointments[j]).queue_id →
        ∃ q ∈ (create_daily_queues_for_provider db pid d).2.queues,
          ((create_daily_queues_for_provider db pid d).2.appointments[j]).queue_id
              = some q.id ∧
          q.provider_id = (db.appointments[j]).provider_id ∧
          q.service_name = (db.appointments[j]).service_name ∧
          ∃ dt, (db.appointments[j]).scheduled_at = some dt ∧
            q.queue_date = dt.date) := by
  constructor
  · exact assign_returns_key_queue
  · intro db pid d hnodup j hj hj' hne
    have hmatch : ∀ a ∈ db.appointments.filter (dailyAppointmentMatch pid d),
        dailyAppointmentMatch pid d a = true :=
      fun a ha => (List.mem_filter.mp ha).2
    have hcons : ∀ a ∈ db.appointments.filter (dailyAppointmentMatch pid d),
        ∀ (k : Nat) (hk : k < db.appointments.length),
        (db.appointments[k]).id = a.id →
          (db.appointments[k]).provider_id = a.provider_id ∧
          (db.appointments[k]).service_name = a.service_name ∧
          (db.appointments[k]).scheduled_at = a.scheduled_at := by
      intro a ha k hk hkid
      have hmem : a ∈ db.appointments := (List.mem_filter.mp ha).1
      have heq : db.appointments[k] = a :=
        row_unique hnodup (List.getElem_mem hk) hmem hkid
      rw [heq]
      exact ⟨rfl, rfl, rfl⟩
    exact createDailyQueuesGo_links pid d _ hmatch _ [] db hcons j hj hj' hne

set_option maxRecDepth 8000 in
/-- Witness for C10: a fresh assignment and a bulk run, both at the
one-appointment store. -/
theorem linked_queue_matches_appointment_witness :
    (mkDailyQueue exDB3 1 "Consult" exDate).provider_id
        = exAppointmentA.provider_id ∧
    ∃ q, q ∈ (create_daily_queues_for_provider exDB3 1 exDate).2.queues := by
  constructor
  · exact (linked_queue_matches_appointment.1 exDB3 exAppointmentA
      (mkDailyQueue exDB3 1 "Consult" exDate)
      ((assign_appointment_to_queue exDB3 exAppointmentA).2) (by decide)).1
  · obtain ⟨q, hq, -⟩ := linked_queue_matches_appointment.2 exDB3 1 exDate
      (by decide) 0 (by decide) (by decide) (by decide)
    exact ⟨q, hq⟩

/-! ## Queue entries: joining (claims C9 and C6) -/

/-- C9: `add_queue_entry` validates nothing about its target queue: for
every `queue_id` — including one naming no existing queue, or a closed or
paused queue, or a queue whose entry count already equals `max_size` —
it still appends and returns a new entry in the default `waiting` status
instead of raising any not-found, capacity or state error; the created
entry does not depend on the queue table at all. -/
theorem joinQueue_no_validation (db : DB) (queue_id : Nat)
    (entry : QueueEntryCreate) :
    (add_queue_entry db queue_id entry).1.status = QueueEntryStatus.waiting ∧
    (add_queue_entry db queue_id entry).2.entries
      = db.entries ++ [(add_queue_entry db queue_id entry).1] ∧
    (add_queue_entry db queue_id entry).1.queue_id = entry.queue_id ∧
    ∀ qs : List Queue,
      (add_queue_entry { db with queues := qs } queue_id entry).1
        = (add_queue_entry db queue_id entry).1 :=
  ⟨rfl, rfl, rfl, fun _ => rfl⟩

theorem le_foldl_max (l : List Nat) (b : Nat) : b ≤ l.foldl max b := by
  induction l generalizing b with
  | nil => exact Nat.le_refl b
  | cons x xs ih => exact le_trans (Nat.le_max_left b x) (ih (max b x))

theorem mem_le_foldl_max (l : List Nat) (a : Nat) (ha : a ∈ l) :
    ∀ b : Nat, a ≤ l.foldl max b := by
  induction l with
  | nil => cases ha
  | cons x xs ih =>
      intro b
      rcases List.mem_cons.mp ha with rfl | h
      · exact le_trans (Nat.le_max_right b a) (le_foldl_max xs (max b a))
      · exact ih h (max b x)

/-- C6 counterexample: on an empty queue a join returns position 1;
after that entry is removed, the next join returns position 1 again —
a previously issued position is reused, contradicting the claim for
sequences containing a removal. -/
theorem join_position_reuse_counterexample :
    (add_queue_entry exDBE0 1 exEntryCreate).1.position = 1 ∧
    ((remove_queue_entry (add_queue_entry exDBE0 1 exEntryCreate).2 1
        (add_queue_entry exDBE0 1 exEntryCreate).1.id).toOption.map
      (fun db2 => (add_queue_entry db2 1 exEntryCreate).1.position)) = some 1 := by
  constructor
  · rfl
  · rfl

/-- A row update through `update_queue_entry` keeps every row's
`position` and `queue_id` (the update schema carries neither field). -/
theorem updateFirst_map_eq {α β : Type} (p : α → Bool) (f : α → α)
    (g : α → β) (hg : ∀ a, g (f a) = g a) :
    ∀ l : List α, (updateFirst p f l).map g = l.map g := by
  intro l
  induction l with
  | nil => rfl
  | cons x xs ih =>
      by_cases hx : p x = true
      · simp [updateFirst, hx, hg]
      · rw [Bool.not_eq_true] at hx
        simp [updateFirst, hx, ih]

/-- C6 amended: `join` assigns position `max(existing positions in the
path's queue) + 1`, or `1` when that queue has no entries, so every join
returns a position strictly greater than all positions currently present
in the queue; a cancellation (a status update) keeps its row and
position, so cancelled entries never enable reuse.  (As the
counterexample shows, *removing* the entry holding the maximum position
does let a later join reissue that position — the no-reuse guarantee
only holds for sequences of joins and cancellations.) -/
theorem join_positions_monotonic :
    (∀ (db : DB) (queue_id : Nat) (c : QueueEntryCreate) (e : QueueEntry),
      e ∈ db.entries → e.queue_id = queue_id →
      e.position < (add_queue_entry db queue_id c).1.position) ∧
    (∀ (db : DB) (queue_id : Nat) (c : QueueEntryCreate),
      db.entries.filter (fun x => decide (x.queue_id = queue_id)) = [] →
      (add_queue_entry db queue_id c).1.position = 1) ∧
    (∀ (db : DB) (qid eid : Nat) (u : QueueEntryUpdate) (e2 : QueueEntry)
      (db2 : DB),
      update_queue_entry db qid eid u = Except.ok (e2, db2) →
      db2.entries.map (·.position) = db.entries.map (·.position) ∧
      db2.entries.map (·.queue_id) = db.entries.map (·.queue_id)) := by
  refine ⟨?_, ?_, ?_⟩
  · intro db queue_id c e he hq
    have hmem : e ∈ db.entries.filter (fun x => decide (x.queue_id = queue_id)) :=
      List.mem_filter.mpr ⟨he, by simp [hq]⟩
    unfold add_queue_entry
    cases hfil : db.entries.filter (fun x => decide (x.queue_id = queue_id)) with
    | nil => rw [hfil] at hmem; cases hmem
    | cons x xs =>
        rw [hfil] at hmem
        have hle : e.position ≤ ((x :: xs).map (·.position)).foldl max 0 :=
          mem_le_foldl_max _ _ (List.mem_map_of_mem _ hmem) 0
        simp only [hfil]
        omega
  · intro db queue_id c hempty
    unfold add_queue_entry
    simp only [hempty]
  · intro db qid eid u e2 db2 h
    unfold update_queue_entry at h
    cases hfind : db.entries.find? (entryMatch qid eid) with
    | none => rw [hfind] at h; cases h
    | some e0 =>
        rw [hfind] at h
        have hdb2 : db2 = { db with
            entries := updateFirst (entryMatch qid eid)
              (fun e => applyEntryUpdate e u) db.entries } := by
          have h2 := congrArg (fun r => match r with
            | Except.ok (p : QueueEntry × DB) => p.2
            | Except.error _ => db2) h
          simpa using h2.symm
        subst hdb2
        constructor
        · exact updateFirst_map_eq (entryMatch qid eid)
            (fun e => applyEntryUpdate e u) (fun x => x.position)
            (fun a => rfl) db.entries
        · exact updateFirst_map_eq (entryMatch qid eid)
            (fun e => applyEntryUpdate e u) (fun x => x.queue_id)
            (fun a => rfl) db.entries

/-- Witness for the amended C6: joining next to an occupied position 1
yields a larger position; joining an empty queue yields 1; cancelling
keeps all positions. -/
theorem join_positions_monotonic_witness :
    (1 : Nat) < (add_queue_entry exDBE1 1 exEntryCreate).1.position ∧
    (add_queue_entry exDBE0 1 exEntryCreate).1.position = 1 ∧
    List.map (fun x => x.position)
        ({ exDBE1 with entries := (updateFirst (entryMatch 1 0)
          (fun e => applyEntryUpdate e exCancelUpd) exDBE1.entries) }).entries
      = List.map (fun x => x.position) exDBE1.entries := by
  refine ⟨?_, ?_, ?_⟩
  · exact join_positions_monotonic.1 exDBE1 1 exEntryCreate exEntry1
      (by decide) rfl
  · exact join_positions_monotonic.2.1 exDBE0 1 exEntryCreate rfl
  · exact (join_positions_monotonic.2.2 exDBE1 1 0 exCancelUpd _ _ rfl).1

/-! ## Queue entries: status updates (claim C7) -/

/-- C7 counterexample: requesting the entry's current status (`waiting`)
is accepted unchanged — no StateError — and a `waiting → called`
transition is applied without ever writing `called_at`. -/
theorem update_entry_counterexample :
    update_queue_entry exDBE1 1 0 exSameUpd = Except.ok (exEntry1, exDBE1) ∧
    (update_queue_entry exDBE1 1 0 exCallUpd).toOption.map
      (fun r => (r.1.status, r.1.called_at))
      = some (QueueEntryStatus.called, none) := by
  constructor
  · rfl
  · rfl

/-- C7 amended: `update_queue_entry` enforces no state machine at all:
when the entry exists, any requested status — the entry's current status
included, or any transition outside the documented machine — is applied
verbatim and returned, never rejected; `called_at` and `completed_at` are
never written by the endpoint; the only error is the 404 returned when no
entry matches the path. -/
theorem update_entry_no_state_machine :
    (∀ (db : DB) (qid eid : Nat) (u : QueueEntryUpdate) (e : QueueEntry),
      db.entries.find? (entryMatch qid eid) = some e →
      ∃ db2, update_queue_entry db qid eid u
          = Except.ok (applyEntryUpdate e u, db2) ∧
        (applyEntryUpdate e u).called_at = e.called_at ∧
        (applyEntryUpdate e u).completed_at = e.completed_at ∧
        ∀ st, u.status = some st → (applyEntryUpdate e u).status = st) ∧
    (∀ (db : DB) (qid eid : Nat) (u : QueueEntryUpdate),
      db.entries.find? (entryMatch qid eid) = none →
      update_queue_entry db qid eid u = Except.error "Queue entry not found") := by
  constructor
  · intro db qid eid u e hfind
    refine ⟨{ db with entries := (updateFirst (entryMatch qid eid)
        (fun x => applyEntryUpdate x u) db.entries) }, ?_, rfl, rfl, ?_⟩
    · unfold update_queue_entry
      rw [hfind]
    · intro st hst
      simp [applyEntryUpdate, hst]
  · intro db qid eid u hfind
    unfold update_queue_entry
    rw [hfind]

/-- Witness for the amended C7: an existing entry takes any status; a
missing entry yields the 404 error. -/
theorem update_entry_no_state_machine_witness :
    (∃ db2, update_queue_entry exDBE1 1 0 exCallUpd
        = Except.ok (applyEntryUpdate exEntry1 exCallUpd, db2)) ∧
    update_queue_entry exDBE0 1 0 exCallUpd
      = Except.error "Queue entry not found" := by
  constructor
  · obtain ⟨db2, h, -⟩ := update_entry_no_state_machine.1 exDBE1 1 0
      exCallUpd exEntry1 rfl
    exact ⟨db2, h⟩
  · exact update_entry_no_state_machine.2 exDBE0 1 0 exCallUpd rfl

/-! ## Availability resolver (claim C8) -/

/-- C8: for every provider, date and set of recurring rules, an active
availability exception with `is_available = false` and no `custom_hours`
whose date range covers the date makes `resolveAvailability` return the
empty list, overriding all recurring rules for that weekday.  (Resolver
modelled from the spec; the repository has no implementation.) -/
theorem blocking_exception_clears_day (rules : List AvailRule) (pid : Nat)
    (d : PyDate) (e : AvailException) (hact : e.is_active = true)
    (hav : e.is_available = false) (hch : e.custom_hours = none)
    (hlo : PyDate.ble e.start_date d = true)
    (hhi : PyDate.ble d e.end_date = true) :
    resolveAvailability rules [e] pid d = [] := by
  unfold resolveAvailability
  simp only [List.foldl_cons, List.foldl_nil]
  unfold applyException
  rw [hact, hlo, hhi, hch]
  simp [hav]

/-- Witness for C8: the vacation exception empties the Monday of a
provider with a recurring Monday rule. -/
theorem blocking_exception_clears_day_witness :
    resolveAvailability [exRule] [exVacation] 1 exDate = [] :=
  blocking_exception_clears_day [exRule] 1 exDate exVacation rfl rfl rfl
    (by decide) (by decide)

end WaitLessQ
